import Mathlib

/-!
Verification of the `CoglSnippet` API of the Cogl repository
(`src/cogl/cogl-snippet.h`).

The repository ships only the public header: the enumeration
`CoglSnippetHook` and the prototypes of `cogl_snippet_new`,
`cogl_snippet_get_hook`, `cogl_is_snippet` and the four
setter/getter pairs, together with their documentation.  The
implementation file is not part of `src/`, so every operation below is
modelled from the spec, faithful to the documented contract; the
enumeration itself is taken verbatim from the header.
-/

/-- The five hook points of `CoglSnippetHook`
(`src/cogl/cogl-snippet.h`, lines 246-259). -/
inductive CoglSnippetHook where
  | vertex
  | fragment
  | textureCoordTransform
  | layerFragment
  | textureLookup
deriving DecidableEq, Repr

/-- The numeric value each enumerator carries in the C enum.  The first
four are assigned explicitly in the header; `COGL_SNIPPET_HOOK_TEXTURE_LOOKUP`
has no initializer, so by C enumeration rules its value is the successor
of `COGL_SNIPPET_HOOK_LAYER_FRAGMENT`. -/
def CoglSnippetHook.toNat : CoglSnippetHook → Nat
  | .vertex => 0
  | .fragment => 2048
  | .textureCoordTransform => 4096
  | .layerFragment => 6144
  | .textureLookup => 6144 + 1

/-- Modelled from the spec: the opaque `CoglSnippet` record.  The
implementation (`cogl-snippet.c`) is not under `src/`; per the spec's
data model a snippet carries one hook tag fixed at construction and
four optional source-text fields (`declarations`, `pre`, `replace`,
`post`), each absent (`NULL`) unless set. -/
structure CoglSnippet where
  hook : CoglSnippetHook
  declarations : Option String
  pre : Option String
  replace : Option String
  post : Option String
deriving DecidableEq, Repr

/-- Modelled from the spec: `cogl_snippet_new (hook, declarations, post)`.
The implementation is missing from `src/`; the header documents that the
constructor allocates a new snippet initialized with the given hook and
the two source strings, `pre` and `replace` being left unset. -/
def cogl_snippet_new (hook : CoglSnippetHook)
    (declarations post : Option String) : CoglSnippet :=
  { hook := hook
    declarations := declarations
    pre := none
    replace := none
    post := post }

/-- Modelled from the spec: `cogl_snippet_get_hook` returns the hook
that was set when `cogl_snippet_new` was called (the implementation is
not under `src/`). -/
def cogl_snippet_get_hook (snippet : CoglSnippet) : CoglSnippetHook :=
  snippet.hook

/-- Modelled from the spec: `cogl_snippet_get_declarations` returns the
string set with the setter, or `NULL` (`none`) if none was set. -/
def cogl_snippet_get_declarations (snippet : CoglSnippet) : Option String :=
  snippet.declarations

/-- Modelled from the spec: `cogl_snippet_get_pre`. -/
def cogl_snippet_get_pre (snippet : CoglSnippet) : Option String :=
  snippet.pre

/-- Modelled from the spec: `cogl_snippet_get_replace`. -/
def cogl_snippet_get_replace (snippet : CoglSnippet) : Option String :=
  snippet.replace

/-- Modelled from the spec: `cogl_snippet_get_post`. -/
def cogl_snippet_get_post (snippet : CoglSnippet) : Option String :=
  snippet.post

/-- Modelled from the spec: `cogl_snippet_set_declarations` replaces the
stored `declarations` text entirely (no append semantics), leaving the
other fields alone.  Written in state-passing style: the result is the
snippet after the call. -/
def cogl_snippet_set_declarations (snippet : CoglSnippet)
    (declarations : Option String) : CoglSnippet :=
  { snippet with declarations := declarations }

/-- Modelled from the spec: `cogl_snippet_set_pre`. -/
def cogl_snippet_set_pre (snippet : CoglSnippet)
    (pre : Option String) : CoglSnippet :=
  { snippet with pre := pre }

/-- Modelled from the spec: `cogl_snippet_set_replace`. -/
def cogl_snippet_set_replace (snippet : CoglSnippet)
    (replace : Option String) : CoglSnippet :=
  { snippet with replace := replace }

/-- Modelled from the spec: `cogl_snippet_set_post`. -/
def cogl_snippet_set_post (snippet : CoglSnippet)
    (post : Option String) : CoglSnippet :=
  { snippet with post := post }

/-- Modelled from the spec: the dynamically-typed handle domain of
`cogl_is_snippet`.  A handle is either a snippet or a value of some
unrelated Cogl type, identified by a type tag. -/
inductive CoglHandle where
  | snippet (s : CoglSnippet)
  | other (typeTag : Nat)
deriving DecidableEq, Repr

/-- Modelled from the spec: `cogl_is_snippet` — `TRUE` iff the handle
references a `CoglSnippet`. -/
def cogl_is_snippet : CoglHandle → Bool
  | .snippet _ => true
  | .other _ => false

/-- One call of the post-construction API: the four setters and the
five getters.  Used to state invariants over arbitrary call sequences. -/
inductive SnippetOp where
  | setDeclarations (v : Option String)
  | setPre (v : Option String)
  | setReplace (v : Option String)
  | setPost (v : Option String)
  | getHook
  | getDeclarations
  | getPre
  | getReplace
  | getPost
deriving DecidableEq, Repr

/-- The value a single API call returns. -/
inductive SnippetOpResult where
  | unit
  | hookVal (h : CoglSnippetHook)
  | text (t : Option String)
deriving DecidableEq, Repr

/-- Run one API call on a snippet: the returned value paired with the
snippet's state after the call.  Setters are the spec-modelled
mutators above; getters read the state and leave it untouched. -/
def runOp (s : CoglSnippet) : SnippetOp → SnippetOpResult × CoglSnippet
  | .setDeclarations v => (.unit, cogl_snippet_set_declarations s v)
  | .setPre v => (.unit, cogl_snippet_set_pre s v)
  | .setReplace v => (.unit, cogl_snippet_set_replace s v)
  | .setPost v => (.unit, cogl_snippet_set_post s v)
  | .getHook => (.hookVal (cogl_snippet_get_hook s), s)
  | .getDeclarations => (.text (cogl_snippet_get_declarations s), s)
  | .getPre => (.text (cogl_snippet_get_pre s), s)
  | .getReplace => (.text (cogl_snippet_get_replace s), s)
  | .getPost => (.text (cogl_snippet_get_post s), s)

/-- The snippet state after a whole sequence of API calls. -/
def runOps (s : CoglSnippet) : List SnippetOp → CoglSnippet
  | [] => s
  | op :: ops => runOps (runOp s op).2 ops

/-- Whether an operation is one of the five getters. -/
def SnippetOp.isGetter : SnippetOp → Bool
  | .getHook | .getDeclarations | .getPre | .getReplace | .getPost => true
  | _ => false

/-- Modelled from the spec: construction viewed as a fallible call.
The implementation is not under `src/`; the spec states construction is
total for every hook and every pair of optional texts — no validation
of the text content is performed and no error is raised at this layer —
so the result is always `some`. -/
def cogl_snippet_new_checked (hook : CoglSnippetHook)
    (declarations post : Option String) : Option CoglSnippet :=
  some (cogl_snippet_new hook declarations post)

/-- Whether an operation is the `declarations` setter. -/
def SnippetOp.setsDeclarations : SnippetOp → Bool
  | .setDeclarations _ => true
  | _ => false

/-- Whether an operation is the `pre` setter. -/
def SnippetOp.setsPre : SnippetOp → Bool
  | .setPre _ => true
  | _ => false

/-- Whether an operation is the `replace` setter. -/
def SnippetOp.setsReplace : SnippetOp → Bool
  | .setReplace _ => true
  | _ => false

/-- Whether an operation is the `post` setter. -/
def SnippetOp.setsPost : SnippetOp → Bool
  | .setPost _ => true
  | _ => false

/-- No single API call changes the hook. -/
theorem runOp_hook (s : CoglSnippet) (o : SnippetOp) :
    ((runOp s o).2).hook = s.hook := by
  cases o <;> rfl

/-- No sequence of API calls changes the hook. -/
theorem runOps_hook (s : CoglSnippet) (ops : List SnippetOp) :
    (runOps s ops).hook = s.hook := by
  induction ops generalizing s with
  | nil => rfl
  | cons o ops ih => rw [runOps, ih, runOp_hook]

/-- A call that is not the `declarations` setter leaves `declarations`
unchanged. -/
theorem runOp_declarations (s : CoglSnippet) (o : SnippetOp)
    (h : o.setsDeclarations = false) :
    ((runOp s o).2).declarations = s.declarations := by
  cases o <;> simp_all [runOp, SnippetOp.setsDeclarations,
    cogl_snippet_set_pre, cogl_snippet_set_replace, cogl_snippet_set_post]

/-- A sequence with no `declarations` setter leaves `declarations`
unchanged. -/
theorem runOps_declarations (s : CoglSnippet) (ops : List SnippetOp)
    (h : ops.all (fun o => !o.setsDeclarations) = true) :
    (runOps s ops).declarations = s.declarations := by
  induction ops generalizing s with
  | nil => rfl
  | cons o ops ih =>
    simp only [List.all_cons, Bool.and_eq_true, Bool.not_eq_true'] at h
    rw [runOps, ih _ h.2, runOp_declarations s o h.1]

/-- A call that is not the `pre` setter leaves `pre` unchanged. -/
theorem runOp_pre (s : CoglSnippet) (o : SnippetOp)
    (h : o.setsPre = false) :
    ((runOp s o).2).pre = s.pre := by
  cases o <;> simp_all [runOp, SnippetOp.setsPre,
    cogl_snippet_set_declarations, cogl_snippet_set_replace,
    cogl_snippet_set_post]

/-- A sequence with no `pre` setter leaves `pre` unchanged. -/
theorem runOps_pre (s : CoglSnippet) (ops : List SnippetOp)
    (h : ops.all (fun o => !o.setsPre) = true) :
    (runOps s ops).pre = s.pre := by
  induction ops generalizing s with
  | nil => rfl
  | cons o ops ih =>
    simp only [List.all_cons, Bool.and_eq_true, Bool.not_eq_true'] at h
    rw [runOps, ih _ h.2, runOp_pre s o h.1]

/-- A call that is not the `replace` setter leaves `replace` unchanged. -/
theorem runOp_replace (s : CoglSnippet) (o : SnippetOp)
    (h : o.setsReplace = false) :
    ((runOp s o).2).replace = s.replace := by
  cases o <;> simp_all [runOp, SnippetOp.setsReplace,
    cogl_snippet_set_declarations, cogl_snippet_set_pre,
    cogl_snippet_set_post]

/-- A sequence with no `replace` setter leaves `replace` unchanged. -/
theorem runOps_replace (s : CoglSnippet) (ops : List SnippetOp)
    (h : ops.all (fun o => !o.setsReplace) = true) :
    (runOps s ops).replace = s.replace := by
  induction ops generalizing s with
  | nil => rfl
  | cons o ops ih =>
    simp only [List.all_cons, Bool.and_eq_true, Bool.not_eq_true'] at h
    rw [runOps, ih _ h.2, runOp_replace s o h.1]

/-- A call that is not the `post` setter leaves `post` unchanged. -/
theorem runOp_post (s : CoglSnippet) (o : SnippetOp)
    (h : o.setsPost = false) :
    ((runOp s o).2).post = s.post := by
  cases o <;> simp_all [runOp, SnippetOp.setsPost,
    cogl_snippet_set_declarations, cogl_snippet_set_pre,
    cogl_snippet_set_replace]

/-- A sequence with no `post` setter leaves `post` unchanged. -/
theorem runOps_post (s : CoglSnippet) (ops : List SnippetOp)
    (h : ops.all (fun o => !o.setsPost) = true) :
    (runOps s ops).post = s.post := by
  induction ops generalizing s with
  | nil => rfl
  | cons o ops ih =>
    simp only [List.all_cons, Bool.and_eq_true, Bool.not_eq_true'] at h
    rw [runOps, ih _ h.2, runOp_post s o h.1]

/-- Claim C1: for every snippet constructed with
`cogl_snippet_new (hook, declarations, post)` and every one of the five
hook enumeration values, `cogl_snippet_get_hook` on the resulting
snippet returns exactly the hook passed to construction. -/
theorem cogl_snippet_get_hook_of_new (hook : CoglSnippetHook)
    (d p : Option String) :
    cogl_snippet_get_hook (cogl_snippet_new hook d p) = hook := rfl

/-- Claim C2: each of the four optional text fields returns absent
(`none`) from its getter when it was never explicitly set — stated over
every call sequence containing no setter for that field, starting from
a construction that did not supply that field — and for every value
`v` (including `none`), immediately after `set_X v` the getter
`get_X` returns `v` exactly. -/
theorem cogl_snippet_default_absent_and_roundtrip :
    (∀ (hook : CoglSnippetHook) (p : Option String) (ops : List SnippetOp),
      ops.all (fun o => !o.setsDeclarations) = true →
      cogl_snippet_get_declarations (runOps (cogl_snippet_new hook none p) ops) = none) ∧
    (∀ (hook : CoglSnippetHook) (d p : Option String) (ops : List SnippetOp),
      ops.all (fun o => !o.setsPre) = true →
      cogl_snippet_get_pre (runOps (cogl_snippet_new hook d p) ops) = none) ∧
    (∀ (hook : CoglSnippetHook) (d p : Option String) (ops : List SnippetOp),
      ops.all (fun o => !o.setsReplace) = true →
      cogl_snippet_get_replace (runOps (cogl_snippet_new hook d p) ops) = none) ∧
    (∀ (hook : CoglSnippetHook) (d : Option String) (ops : List SnippetOp),
      ops.all (fun o => !o.setsPost) = true →
      cogl_snippet_get_post (runOps (cogl_snippet_new hook d none) ops) = none) ∧
    (∀ (s : CoglSnippet) (v : Option String),
      cogl_snippet_get_declarations (cogl_snippet_set_declarations s v) = v) ∧
    (∀ (s : CoglSnippet) (v : Option String),
      cogl_snippet_get_pre (cogl_snippet_set_pre s v) = v) ∧
    (∀ (s : CoglSnippet) (v : Option String),
      cogl_snippet_get_replace (cogl_snippet_set_replace s v) = v) ∧
    (∀ (s : CoglSnippet) (v : Option String),
      cogl_snippet_get_post (cogl_snippet_set_post s v) = v) := by
  refine ⟨?_, ?_, ?_, ?_, fun s v => rfl, fun s v => rfl,
    fun s v => rfl, fun s v => rfl⟩
  · intro hook p ops h
    exact runOps_declarations _ ops h
  · intro hook d p ops h
    exact runOps_pre _ ops h
  · intro hook d p ops h
    exact runOps_replace _ ops h
  · intro hook d ops h
    exact runOps_post _ ops h

/-- Witness for claim C2 at concrete inputs: after construction with no
`pre` argument and a call sequence that sets `post` but never `pre`,
`get_pre` is still absent; and a concrete `set_post`/`get_post`
round-trip. -/
theorem cogl_snippet_default_absent_and_roundtrip_witness :
    cogl_snippet_get_pre
      (runOps (cogl_snippet_new CoglSnippetHook.vertex (some "d") (some "p"))
        [SnippetOp.setPost (some "q"), SnippetOp.getHook]) = none ∧
    cogl_snippet_get_post
      (cogl_snippet_set_post
        (cogl_snippet_new CoglSnippetHook.vertex none none) (some "b")) = some "b" :=
  ⟨cogl_snippet_default_absent_and_roundtrip.2.1 CoglSnippetHook.vertex
      (some "d") (some "p") [SnippetOp.setPost (some "q"), SnippetOp.getHook] rfl,
    cogl_snippet_default_absent_and_roundtrip.2.2.2.2.2.2.2
      (cogl_snippet_new CoglSnippetHook.vertex none none) (some "b")⟩

/-- Claim C3: for every hook and all declaration/post texts,
`cogl_snippet_new (hook, d, p)` yields a snippet with `pre` and
`replace` unset, `declarations = d`, `post = p` and the given hook; in
particular the concrete vertex-snippet scenario of the spec holds. -/
theorem cogl_snippet_new_fields (hook : CoglSnippetHook) (d p : Option String) :
    cogl_snippet_get_hook (cogl_snippet_new hook d p) = hook ∧
    cogl_snippet_get_declarations (cogl_snippet_new hook d p) = d ∧
    cogl_snippet_get_pre (cogl_snippet_new hook d p) = none ∧
    cogl_snippet_get_replace (cogl_snippet_new hook d p) = none ∧
    cogl_snippet_get_post (cogl_snippet_new hook d p) = p ∧
    cogl_snippet_get_hook
      (cogl_snippet_new CoglSnippetHook.vertex (some "uniform float u;")
        (some "cogl_position_out.x += u;")) = CoglSnippetHook.vertex ∧
    cogl_snippet_get_declarations
      (cogl_snippet_new CoglSnippetHook.vertex (some "uniform float u;")
        (some "cogl_position_out.x += u;")) = some "uniform float u;" ∧
    cogl_snippet_get_pre
      (cogl_snippet_new CoglSnippetHook.vertex (some "uniform float u;")
        (some "cogl_position_out.x += u;")) = none ∧
    cogl_snippet_get_replace
      (cogl_snippet_new CoglSnippetHook.vertex (some "uniform float u;")
        (some "cogl_position_out.x += u;")) = none ∧
    cogl_snippet_get_post
      (cogl_snippet_new CoglSnippetHook.vertex (some "uniform float u;")
        (some "cogl_position_out.x += u;")) = some "cogl_position_out.x += u;" :=
  ⟨rfl, rfl, rfl, rfl, rfl, rfl, rfl, rfl, rfl, rfl⟩

/-- Claim C4: for every snippet and each of the four text fields,
calling the setter twice leaves the field holding exactly the second
value (last write wins), never a concatenation; in particular
`set_post "a"; set_post "b"` yields `get_post = "b"`. -/
theorem cogl_snippet_set_twice_last_wins (s : CoglSnippet)
    (a b : Option String) :
    cogl_snippet_get_declarations
      (cogl_snippet_set_declarations (cogl_snippet_set_declarations s a) b) = b ∧
    cogl_snippet_get_pre
      (cogl_snippet_set_pre (cogl_snippet_set_pre s a) b) = b ∧
    cogl_snippet_get_replace
      (cogl_snippet_set_replace (cogl_snippet_set_replace s a) b) = b ∧
    cogl_snippet_get_post
      (cogl_snippet_set_post (cogl_snippet_set_post s a) b) = b ∧
    cogl_snippet_get_post
      (cogl_snippet_set_post (cogl_snippet_set_post s (some "a"))
        (some "b")) = some "b" :=
  ⟨rfl, rfl, rfl, rfl, rfl⟩

/-- Claim C5: each of the four setters modifies only its own field; the
hook and the other three text fields are unchanged by the call. -/
theorem cogl_snippet_setters_frame (s : CoglSnippet) (v : Option String) :
    ((cogl_snippet_set_declarations s v).hook = s.hook ∧
     (cogl_snippet_set_declarations s v).pre = s.pre ∧
     (cogl_snippet_set_declarations s v).replace = s.replace ∧
     (cogl_snippet_set_declarations s v).post = s.post) ∧
    ((cogl_snippet_set_pre s v).hook = s.hook ∧
     (cogl_snippet_set_pre s v).declarations = s.declarations ∧
     (cogl_snippet_set_pre s v).replace = s.replace ∧
     (cogl_snippet_set_pre s v).post = s.post) ∧
    ((cogl_snippet_set_replace s v).hook = s.hook ∧
     (cogl_snippet_set_replace s v).declarations = s.declarations ∧
     (cogl_snippet_set_replace s v).pre = s.pre ∧
     (cogl_snippet_set_replace s v).post = s.post) ∧
    ((cogl_snippet_set_post s v).hook = s.hook ∧
     (cogl_snippet_set_post s v).declarations = s.declarations ∧
     (cogl_snippet_set_post s v).pre = s.pre ∧
     (cogl_snippet_set_post s v).replace = s.replace) :=
  ⟨⟨rfl, rfl, rfl, rfl⟩, ⟨rfl, rfl, rfl, rfl⟩,
   ⟨rfl, rfl, rfl, rfl⟩, ⟨rfl, rfl, rfl, rfl⟩⟩

/-- Claim C6: the hook is an invariant of the snippet state — for every
snippet and every sequence of API calls, `cogl_snippet_get_hook` after
the sequence agrees with its value before, and for a snippet built by
`cogl_snippet_new` it is the hook passed at construction. -/
theorem cogl_snippet_hook_invariant (s : CoglSnippet)
    (hook : CoglSnippetHook) (d p : Option String) (ops : List SnippetOp) :
    cogl_snippet_get_hook (runOps s ops) = cogl_snippet_get_hook s ∧
    cogl_snippet_get_hook (runOps (cogl_snippet_new hook d p) ops) = hook :=
  ⟨runOps_hook s ops, runOps_hook (cogl_snippet_new hook d p) ops⟩

/-- Claim C7: `cogl_is_snippet` is a sound and complete type predicate
over the handle domain — true on every value produced by the snippet
constructor (and on any snippet handle), false on every handle of an
unrelated type. -/
theorem cogl_is_snippet_sound_complete (hook : CoglSnippetHook)
    (d p : Option String) (s : CoglSnippet) (t : Nat) :
    cogl_is_snippet (CoglHandle.snippet (cogl_snippet_new hook d p)) = true ∧
    cogl_is_snippet (CoglHandle.snippet s) = true ∧
    cogl_is_snippet (CoglHandle.other t) = false :=
  ⟨rfl, rfl, rfl⟩

/-- Claim C8: the five hook enumeration constants have exactly the
numeric values 0, 2048, 4096, 6144 and 6145, and those five values are
pairwise distinct. -/
theorem coglSnippetHook_numeric_values :
    CoglSnippetHook.toNat CoglSnippetHook.vertex = 0 ∧
    CoglSnippetHook.toNat CoglSnippetHook.fragment = 2048 ∧
    CoglSnippetHook.toNat CoglSnippetHook.textureCoordTransform = 4096 ∧
    CoglSnippetHook.toNat CoglSnippetHook.layerFragment = 6144 ∧
    CoglSnippetHook.toNat CoglSnippetHook.textureLookup = 6145 ∧
    (List.map CoglSnippetHook.toNat
      [CoglSnippetHook.vertex, CoglSnippetHook.fragment,
       CoglSnippetHook.textureCoordTransform, CoglSnippetHook.layerFragment,
       CoglSnippetHook.textureLookup]).Nodup := by
  refine ⟨rfl, rfl, rfl, rfl, rfl, ?_⟩
  decide

/-- Claim C9: construction is total and never fails — for every hook
value and every pair of optional texts the fallible view of the
constructor returns a snippet (always `some`, no validation, no error
at this layer). -/
theorem cogl_snippet_new_total (hook : CoglSnippetHook) (d p : Option String) :
    cogl_snippet_new_checked hook d p = some (cogl_snippet_new hook d p) ∧
    (cogl_snippet_new_checked hook d p).isSome = true :=
  ⟨rfl, rfl⟩

/-- Claim C10: every getter is observationally pure — running it leaves
the snippet state unchanged, so running the same getter twice with no
intervening setter returns the same result. -/
theorem cogl_snippet_getters_pure (s : CoglSnippet) (o : SnippetOp)
    (h : o.isGetter = true) :
    (runOp s o).2 = s ∧ (runOp (runOp s o).2 o).1 = (runOp s o).1 := by
  cases o <;> simp_all [runOp, SnippetOp.isGetter]

/-- Witness for claim C10 at a concrete input: the `get_post` getter on
a concrete snippet leaves the state unchanged and two successive reads
agree. -/
theorem cogl_snippet_getters_pure_witness :
    (runOp (cogl_snippet_new CoglSnippetHook.fragment (some "d") (some "p"))
        SnippetOp.getPost).2 =
      cogl_snippet_new CoglSnippetHook.fragment (some "d") (some "p") ∧
    (runOp (runOp (cogl_snippet_new CoglSnippetHook.fragment (some "d")
        (some "p")) SnippetOp.getPost).2 SnippetOp.getPost).1 =
      (runOp (cogl_snippet_new CoglSnippetHook.fragment (some "d") (some "p"))
        SnippetOp.getPost).1 :=
  cogl_snippet_getters_pure
    (cogl_snippet_new CoglSnippetHook.fragment (some "d") (some "p"))
    SnippetOp.getPost rfl
